import Mathlib

/-!
Verification of `qutebrowser/browser/webengine/notification.py`
(`DBusNotificationManager`): a shallow embedding of the DBus notification
bridge and proofs of the specified properties.

External Qt/PyQt collaborators (QDBusConnection, QDBusInterface, QImage,
QWebEngineNotification, QWebEngineProfile) are modelled as explicit data and
environment inputs; the Python control flow of the bridge itself is translated
statement by statement.
-/

namespace DBusNotify

/-- Wire-level DBus values: the closed set of typed values the bridge puts into
a remote call (QVariant / QDBusArgument payloads).  `uint32` and `int32` are
distinct constructors because the code distinguishes them
(`QVariant(0).convert(QVariant.UInt)` versus a plain Python int). -/
inductive DBusValue where
  | str (s : String)
  | uint32 (n : Nat)
  | int32 (z : Int)
  | boolean (b : Bool)
  | stringList (xs : List String)
  | byteArray (bs : List Nat)
  | struct (fields : List DBusValue)
  | dict (entries : List (String × DBusValue))
deriving Repr

/-- Python `str()` of the value, as used by `"...{}".format(x)` in the log
call. -/
def DBusValue.pyStr : DBusValue → String
  | .str s => s
  | .uint32 n => toString n
  | .int32 z => toString z
  | .boolean b => if b then "True" else "False"
  | _ => "<object>"

/-- QImage pixel formats used in the embedding (`QImage.Format_*`).  Only the
fields the bridge reads are modelled. -/
inductive QImageFormat where
  | mono
  | grayscale8
  | rgb32
  | argb32
  | rgba8888
deriving Repr, DecidableEq

/-- Bit depth (bits per pixel) of each modelled format, per Qt. -/
def QImageFormat.depth : QImageFormat → Nat
  | .mono => 1
  | .grayscale8 => 8
  | .rgb32 => 32
  | .argb32 => 32
  | .rgba8888 => 32

/-- Whether the format carries an alpha channel, per Qt
(`QImage::hasAlphaChannel`). -/
def QImageFormat.hasAlphaFlag : QImageFormat → Bool
  | .argb32 => true
  | .rgba8888 => true
  | _ => false

/-- A QImage: dimensions, pixel format, and the pixel buffer modelled as the
byte at each offset (`mem i` = byte `i` of the buffer).  Byte content is
carried abstractly; no claim depends on actual pixel values. -/
structure QImage where
  width : Nat
  height : Nat
  format : QImageFormat
  mem : Nat → Nat

/-- Qt semantics: scanlines are padded to 32-bit boundaries, so
`bytesPerLine = 4 * ceil(width * depth / 32)`. -/
def QImage.bytesPerLine (img : QImage) : Nat :=
  4 * ((img.width * img.format.depth + 31) / 32)

/-- Qt semantics: `byteCount() = bytesPerLine() * height()`. -/
def QImage.byteCount (img : QImage) : Nat :=
  img.bytesPerLine * img.height

/-- `QImage.hasAlphaChannel()`: determined by the pixel format. -/
def QImage.hasAlphaChannel (img : QImage) : Bool :=
  img.format.hasAlphaFlag

/-- Modelled Qt semantics of `QImage.convertTo(format)`: the image object is
converted in place to the new format; dimensions are preserved and the pixel
buffer is rewritten for the new layout (byte content abstracted).  Qt detaches
from any implicitly shared buffer before writing, so conversion never affects
other QImage values that shared the old buffer.  State passing models the
in-place mutation: the result is the new state of the converted object. -/
def QImage.convertTo (img : QImage) (f : QImageFormat) : QImage :=
  { img with format := f }

/-- `qimage.constBits().asstring(n)`: read the first `n` bytes of the pixel
buffer. -/
def QImage.constBitsAsString (img : QImage) (n : Nat) : List Nat :=
  (List.range n).map img.mem

/-- A QWebEngineNotification handle: the attributes the bridge consumes.
`origin` is already the display string (`origin().toDisplayString()`);
`icon = none` models a null icon (`icon().isNull()`); `shown` is the
handle-side flag set by `show()`. -/
structure QWebEngineNotification where
  title : String
  message : String
  origin : String
  icon : Option QImage
  shown : Bool

/-- `qt_notification.show()`: marks the handle as displayed (a local,
handle-side effect). -/
def QWebEngineNotification.show (n : QWebEngineNotification) :
    QWebEngineNotification :=
  { n with shown := true }

/-- A QDBusMessage reply: its message type (normal reply or bus-level error
reply) and its positional arguments.  For a bus-level error the daemon's error
text travels as the message's first argument (Qt stores the error text there;
`errorMessage()` reads it back). -/
inductive QDBusMessageType where
  | replyMessage
  | errorMessage
deriving Repr, DecidableEq

structure QDBusMessage where
  msgType : QDBusMessageType
  arguments : List DBusValue

/-- The remote interface handle: the (service, path, interface) triple a
`QDBusInterface` is bound to. -/
structure QDBusInterface where
  service : String
  path : String
  interfaceName : String
deriving Repr, DecidableEq

/-- One issued remote call: the method name and the positional argument list,
in order.  (The call mode `QDBus.BlockWithGui` is a scheduling detail with no
data content and is not modelled.) -/
structure NotifyCall where
  method : String
  args : List DBusValue

/-- The single exception class of the module
(`class DBusException(Exception)`), carrying its message string. -/
structure DBusException where
  msg : String
deriving Repr, DecidableEq

/-- The bridge object: the registry dict `active_notifications` (insertion
order list of id ↦ handle pairs) and the remote interface handle. -/
structure DBusNotificationManager where
  active_notifications : List (Nat × QWebEngineNotification)
  interface : QDBusInterface

/-- Environment inputs to `__init__`: whether
`QDBusConnection.sessionBus().isConnected()` holds, and the Python truthiness
of the constructed `QDBusInterface` object (the value `not self.interface`
negates). -/
structure InitEnv where
  busConnected : Bool
  interfaceTruthy : Bool

/-- `DBusNotificationManager.__init__`, statement by statement:
set `active_notifications = {}`; raise if the session bus is not connected;
construct the interface handle bound to the `org.freedesktop.Notifications`
triple; raise if the constructed handle is falsy. -/
def DBusNotificationManager.init (env : InitEnv) :
    Except DBusException DBusNotificationManager :=
  let active_notifications : List (Nat × QWebEngineNotification) := []
  if !env.busConnected then
    .error ⟨"Failed to connect to DBus session bus"⟩
  else
    let interface : QDBusInterface :=
      { service := "org.freedesktop.Notifications"
        path := "/org/freedesktop/Notifications"
        interfaceName := "org.freedesktop.Notifications" }
    if !env.interfaceTruthy then
      .error ⟨"Could not construct a DBus interface"⟩
    else
      .ok { active_notifications := active_notifications
            interface := interface }

/-- Observable actions inside a presenter invocation, in program order. -/
inductive Event where
  | setPresenter
  | showNotification
  | remoteCall
  | logLine
deriving Repr, DecidableEq

/-- Everything `_present` produces: the bridge state afterwards, the state of
the notification handle afterwards, the remote calls issued (in order), the
debug lines logged, the ordered action trace, and the raised exception if
any. -/
structure PresentOutcome where
  manager : DBusNotificationManager
  notification : QWebEngineNotification
  calls : List NotifyCall
  logged : List String
  events : List Event
  result : Except DBusException Unit

/-- `DBusNotificationManager._convert_image`, statement by statement: convert
the image in place to `Format_RGBA8888`, then build the structured argument
width, height, bytesPerLine, hasAlphaChannel, 8, 4, raw bytes.  Returns the
state of the (mutated) image object alongside the built structure. -/
def convert_image (qimage : QImage) : QImage × DBusValue :=
  let qimage := qimage.convertTo .rgba8888
  let bits := qimage.constBitsAsString qimage.byteCount
  (qimage,
   .struct [ .int32 qimage.width,
             .int32 qimage.height,
             .int32 qimage.bytesPerLine,
             .boolean qimage.hasAlphaChannel,
             .int32 8,
             .int32 4,
             .byteArray bits ])

/-- `DBusNotificationManager._present`, statement by statement.  The reply the
daemon sends back to `interface.call(...)` is an environment input.

Notes on the collaborators:
`qt_notification.icon()` returns the icon by value (Qt returns `QImage` by
value with copy-on-write sharing, and `convertTo` detaches before writing), so
the handle's stored icon is never affected by the conversion done in
`_convert_image`; the code never touches `self.active_notifications`; the
reply's message type is never inspected, only `len(reply.arguments())`. -/
def DBusNotificationManager.present (self : DBusNotificationManager)
    (qt_notification : QWebEngineNotification) (reply : QDBusMessage) :
    PresentOutcome :=
  -- notification_id = QVariant(0); notification_id.convert(QVariant.UInt)
  let notification_id : DBusValue := .uint32 0
  -- actions_list = QDBusArgument([], QMetaType.QStringList)
  let actions_list : DBusValue := .stringList []
  -- qt_notification.show()
  let qt_notification := qt_notification.show
  -- hints = {"x-qutebrowser-origin": origin}  (+ image-data when icon non-null)
  let hints : List (String × DBusValue) :=
    [("x-qutebrowser-origin", .str qt_notification.origin)]
  let hints : List (String × DBusValue) :=
    match qt_notification.icon with
    | none => hints
    | some img => hints ++ [("image-data", (convert_image img).2)]
  -- reply = self.interface.call(QDBus.BlockWithGui, "Notify", ...)
  let call : NotifyCall :=
    { method := "Notify"
      args := [ .str "qutebrowser",
                notification_id,
                .str "qutebrowser",
                .str qt_notification.title,
                .str qt_notification.message,
                actions_list,
                .dict hints,
                .int32 (-1) ] }
  if reply.arguments.length = 1 then
    -- notification_id = reply.arguments()[0]; log the assignment
    let notification_id := reply.arguments.headD (.uint32 0)
    { manager := self
      notification := qt_notification
      calls := [call]
      logged := ["Sent out notification " ++ notification_id.pyStr]
      events := [.showNotification, .remoteCall, .logLine]
      result := .ok () }
  else
    -- raise DBusException("Got an unexpected number of reply arguments {n}")
    { manager := self
      notification := qt_notification
      calls := [call]
      logged := []
      events := [.showNotification, .remoteCall]
      result := .error ⟨"Got an unexpected number of reply arguments " ++
                        toString reply.arguments.length⟩ }

/-- The one callback value `set_as_presenter_for` creates and installs
(`_present_and_reset`). -/
inductive PresenterCallback where
  | presentAndReset
deriving Repr, DecidableEq

/-- A QWebEngineProfile: the presenter callback currently installed on it via
`setNotificationPresenter`, if any. -/
structure QWebEngineProfile where
  presenter : Option PresenterCallback
deriving Repr, DecidableEq

/-- `DBusNotificationManager.set_as_presenter_for(profile)`:
`profile.setNotificationPresenter(_present_and_reset)`. -/
def set_as_presenter_for (profile : QWebEngineProfile) : QWebEngineProfile :=
  { profile with presenter := some .presentAndReset }

/-- The outcome of the engine invoking the installed presenter callback. -/
structure InvokeOutcome where
  profile : QWebEngineProfile
  manager : DBusNotificationManager
  notification : QWebEngineNotification
  calls : List NotifyCall
  logged : List String
  events : List Event
  result : Except DBusException Unit

/-- One invocation of the installed `_present_and_reset` callback by the web
engine.  PyQtWebEngine releases its reference to the one-shot callback when it
fires (modelled: the installed presenter is cleared before the body runs); the
body then, as its first statement, re-registers itself via
`profile.setNotificationPresenter(_present_and_reset)` and only afterwards
runs `self._present(qt_notification)`. -/
def runCallback (m : DBusNotificationManager) (profile : QWebEngineProfile)
    (qt_notification : QWebEngineNotification) (reply : QDBusMessage) :
    InvokeOutcome :=
  let profile := { profile with presenter := none }
  -- body of _present_and_reset:
  let profile := { profile with presenter := some .presentAndReset }
  let out := m.present qt_notification reply
  { profile := profile
    manager := out.manager
    notification := out.notification
    calls := out.calls
    logged := out.logged
    events := .setPresenter :: out.events
    result := out.result }

/-- Joint bridge-and-profile state, for iterating engine notification
events. -/
structure SysState where
  manager : DBusNotificationManager
  profile : QWebEngineProfile

/-- The engine delivers one notification: if a presenter callback is
installed it is invoked (with the daemon's reply as environment input);
otherwise nothing happens. -/
def notifyEvent (s : SysState)
    (inp : QWebEngineNotification × QDBusMessage) : SysState :=
  match s.profile.presenter with
  | none => s
  | some .presentAndReset =>
      let out := runCallback s.manager s.profile inp.1 inp.2
      { manager := out.manager, profile := out.profile }

/-- Any number of engine notification deliveries in sequence. -/
def runEvents (s : SysState)
    (steps : List (QWebEngineNotification × QDBusMessage)) : SysState :=
  steps.foldl notifyEvent s

/-- The hints map of an issued Notify call: entry 6 of the positional
argument list (after app name, replaces id, icon name, summary, body,
actions). -/
def NotifyCall.hints (c : NotifyCall) : List (String × DBusValue) :=
  match c.args[6]? with
  | some (DBusValue.dict entries) => entries
  | _ => []

/-- The interface triple the bridge constructs. -/
def sampleInterface : QDBusInterface :=
  { service := "org.freedesktop.Notifications"
    path := "/org/freedesktop/Notifications"
    interfaceName := "org.freedesktop.Notifications" }

/-- A freshly constructed bridge. -/
def sampleManager : DBusNotificationManager :=
  { active_notifications := [], interface := sampleInterface }

/-- A concrete 2 by 1 ARGB32 icon image. -/
def sampleImage : QImage :=
  { width := 2, height := 1, format := .argb32, mem := fun _ => 0 }

/-- A concrete handle without an icon (the spec's section 8 scenario). -/
def sampleNotif : QWebEngineNotification :=
  { title := "Build failed", message := "see log"
    origin := "https://ci.example.com", icon := none, shown := false }

/-- A concrete handle carrying `sampleImage` as its icon. -/
def sampleIconNotif : QWebEngineNotification :=
  { title := "t", message := "m", origin := "o"
    icon := some sampleImage, shown := false }

/-- A well-formed daemon reply assigning notification id 7. -/
def sampleReply : QDBusMessage :=
  { msgType := .replyMessage, arguments := [.uint32 7] }

/-- Helper: `_present` never touches `active_notifications`. -/
theorem present_preserves_registry (m : DBusNotificationManager)
    (n : QWebEngineNotification) (reply : QDBusMessage) :
    (m.present n reply).manager.active_notifications =
      m.active_notifications := by
  unfold DBusNotificationManager.present
  split <;> rfl

/-- Helper: the handle state `_present` leaves behind is the input handle
marked shown, with every other attribute (icon included) unchanged. -/
theorem present_notification_state (m : DBusNotificationManager)
    (n : QWebEngineNotification) (reply : QDBusMessage) :
    (m.present n reply).notification = n.show := by
  unfold DBusNotificationManager.present
  split <;> rfl

/-- Helper: one engine delivery preserves an installed presenter and never
touches the registry. -/
theorem notifyEvent_invariants (s : SysState)
    (inp : QWebEngineNotification × QDBusMessage) :
    ((notifyEvent s inp).profile.presenter = s.profile.presenter ∨
      (notifyEvent s inp).profile.presenter = some .presentAndReset) ∧
    (notifyEvent s inp).manager.active_notifications =
      s.manager.active_notifications := by
  unfold notifyEvent
  cases h : s.profile.presenter with
  | none => exact ⟨Or.inl h, rfl⟩
  | some c =>
      cases c
      exact ⟨Or.inr rfl, present_preserves_registry s.manager inp.1 inp.2⟩

/-- Helper: an installed presenter survives any sequence of deliveries. -/
theorem runEvents_presenter (steps : List (QWebEngineNotification × QDBusMessage))
    (s : SysState) (h : s.profile.presenter = some .presentAndReset) :
    (runEvents s steps).profile.presenter = some .presentAndReset := by
  induction steps generalizing s with
  | nil => exact h
  | cons a t ih =>
      have step := (notifyEvent_invariants s a).1
      have : (notifyEvent s a).profile.presenter = some .presentAndReset := by
        rcases step with h1 | h1
        · rw [h1, h]
        · exact h1
      exact ih (notifyEvent s a) this

/-- Helper: the registry is constant across any sequence of deliveries. -/
theorem runEvents_registry (steps : List (QWebEngineNotification × QDBusMessage))
    (s : SysState) :
    (runEvents s steps).manager.active_notifications =
      s.manager.active_notifications := by
  induction steps generalizing s with
  | nil => rfl
  | cons a t ih =>
      calc (runEvents (notifyEvent s a) t).manager.active_notifications
          = (notifyEvent s a).manager.active_notifications := ih _
        _ = s.manager.active_notifications := (notifyEvent_invariants s a).2

/-- C4: when the reply carries any number of positional arguments other than
exactly one (zero, or two or more), `_present` raises the module's
`DBusException` (the spec's `UnexpectedReply`) carrying the observed argument
count, the registry `active_notifications` is not mutated, and the handle
remains marked as shown. -/
theorem present_bad_arity_raises (m : DBusNotificationManager)
    (n : QWebEngineNotification) (reply : QDBusMessage)
    (h : reply.arguments.length ≠ 1) :
    (m.present n reply).result =
      .error ⟨"Got an unexpected number of reply arguments " ++
              toString reply.arguments.length⟩ ∧
    (m.present n reply).manager.active_notifications =
      m.active_notifications ∧
    (m.present n reply).notification.shown = true := by
  refine ⟨?_, present_preserves_registry m n reply, ?_⟩
  · unfold DBusNotificationManager.present
    simp [h]
  · rw [present_notification_state]; rfl

/-- C4 witness: a zero-argument reply. -/
theorem present_bad_arity_raises_witness :
    (sampleManager.present sampleNotif ⟨.replyMessage, []⟩).result =
      .error ⟨"Got an unexpected number of reply arguments " ++
              toString (QDBusMessage.mk .replyMessage []).arguments.length⟩ ∧
    (sampleManager.present sampleNotif ⟨.replyMessage, []⟩).manager.active_notifications =
      sampleManager.active_notifications ∧
    (sampleManager.present sampleNotif ⟨.replyMessage, []⟩).notification.shown =
      true :=
  present_bad_arity_raises sampleManager sampleNotif ⟨.replyMessage, []⟩
    (by decide)

/-- C5: every `_present` call issues the Notify call with exactly these
positional arguments, in order: app name "qutebrowser", replaces-id 0 typed
as uint32 (the `QVariant(0).convert(QVariant.UInt)` value, never an untyped
zero), app icon "qutebrowser", the handle's title, the handle's message, an
empty string-list actions argument, the hints map, and expire timeout -1
typed as int32. -/
theorem present_call_arguments (m : DBusNotificationManager)
    (n : QWebEngineNotification) (reply : QDBusMessage) :
    ∃ hints : List (String × DBusValue),
      (m.present n reply).calls =
        [{ method := "Notify"
           args := [ .str "qutebrowser", .uint32 0, .str "qutebrowser",
                     .str n.title, .str n.message, .stringList [],
                     .dict hints, .int32 (-1) ] }] := by
  unfold DBusNotificationManager.present
  split <;> exact ⟨_, rfl⟩

/-- C6: for every input image, regardless of its pixel format, the encoded
image structure is, in fixed order: width (int32), height (int32), stride
(int32), has-alpha (bool), bits-per-sample 8 (int32), channels 4 (int32),
and a raw byte payload whose length equals stride * height. -/
theorem convert_image_structure (img : QImage) :
    ∃ (stride : Nat) (hasAlpha : Bool) (payload : List Nat),
      (convert_image img).2 =
        .struct [ .int32 img.width, .int32 img.height, .int32 stride,
                  .boolean hasAlpha, .int32 8, .int32 4,
                  .byteArray payload ] ∧
      payload.length = stride * img.height := by
  refine ⟨(img.convertTo .rgba8888).bytesPerLine,
          (img.convertTo .rgba8888).hasAlphaChannel,
          (img.convertTo .rgba8888).constBitsAsString
            (img.convertTo .rgba8888).byteCount, rfl, ?_⟩
  simp [QImage.constBitsAsString, QImage.byteCount, QImage.convertTo]

/-- C7: `_present` issues exactly one remote call; when the handle has no
icon, the call's hints map is exactly the origin entry, with the image-data
key absent altogether; when the handle carries an icon, the encoded image is
attached under the image-data key. -/
theorem present_hints_spec (m : DBusNotificationManager)
    (n : QWebEngineNotification) (reply : QDBusMessage) :
    (m.present n reply).calls.length = 1 ∧
    (n.icon = none →
      ((m.present n reply).calls.headD ⟨"", []⟩).hints =
        [("x-qutebrowser-origin", .str n.origin)] ∧
      ((m.present n reply).calls.headD ⟨"", []⟩).hints.lookup "image-data" =
        none) ∧
    (∀ img, n.icon = some img →
      ((m.present n reply).calls.headD ⟨"", []⟩).hints =
        [("x-qutebrowser-origin", .str n.origin),
         ("image-data", (convert_image img).2)]) := by
  refine ⟨?_, fun hi => ?_, fun img hi => ?_⟩
  · unfold DBusNotificationManager.present
    split <;> rfl
  · have hc : (m.present n reply).calls =
        [{ method := "Notify"
           args := [ .str "qutebrowser", .uint32 0, .str "qutebrowser",
                     .str n.title, .str n.message, .stringList [],
                     .dict [("x-qutebrowser-origin", .str n.origin)],
                     .int32 (-1) ] }] := by
      unfold DBusNotificationManager.present
      split <;> simp [QWebEngineNotification.show, hi]
    rw [hc]
    exact ⟨rfl, rfl⟩
  · have hc : (m.present n reply).calls =
        [{ method := "Notify"
           args := [ .str "qutebrowser", .uint32 0, .str "qutebrowser",
                     .str n.title, .str n.message, .stringList [],
                     .dict [("x-qutebrowser-origin", .str n.origin),
                            ("image-data", (convert_image img).2)],
                     .int32 (-1) ] }] := by
      unfold DBusNotificationManager.present
      split <;> simp [QWebEngineNotification.show, hi]
    rw [hc]
    rfl

/-- C7 witness: concrete handles without and with an icon. -/
theorem present_hints_spec_witness :
    (((sampleManager.present sampleNotif sampleReply).calls.headD
        ⟨"", []⟩).hints =
      [("x-qutebrowser-origin", .str sampleNotif.origin)] ∧
     ((sampleManager.present sampleNotif sampleReply).calls.headD
        ⟨"", []⟩).hints.lookup "image-data" = none) ∧
    ((sampleManager.present sampleIconNotif sampleReply).calls.headD
        ⟨"", []⟩).hints =
      [("x-qutebrowser-origin", .str sampleIconNotif.origin),
       ("image-data", (convert_image sampleImage).2)] :=
  ⟨(present_hints_spec sampleManager sampleNotif sampleReply).2.1 rfl,
   (present_hints_spec sampleManager sampleIconNotif sampleReply).2.2
     sampleImage rfl⟩

/-- C8: construction raises `DBusException` (the spec's `BridgeUnavailable`)
when the session bus is not connected; otherwise it builds the interface
handle bound to service `org.freedesktop.Notifications`, path
`/org/freedesktop/Notifications` and the interface name of the same string,
raising the same exception kind when the constructed handle is falsy (cannot
be obtained). -/
theorem init_spec (env : InitEnv) :
    (env.busConnected = false →
      DBusNotificationManager.init env =
        .error ⟨"Failed to connect to DBus session bus"⟩) ∧
    (env.busConnected = true → env.interfaceTruthy = false →
      DBusNotificationManager.init env =
        .error ⟨"Could not construct a DBus interface"⟩) ∧
    (env.busConnected = true → env.interfaceTruthy = true →
      DBusNotificationManager.init env =
        .ok { active_notifications := []
              interface :=
                { service := "org.freedesktop.Notifications"
                  path := "/org/freedesktop/Notifications"
                  interfaceName := "org.freedesktop.Notifications" } }) := by
  obtain ⟨b, t⟩ := env
  refine ⟨fun h => ?_, fun h1 h2 => ?_, fun h1 h2 => ?_⟩ <;> subst_vars <;> rfl

/-- C8 witness: the three concrete construction environments. -/
theorem init_spec_witness :
    DBusNotificationManager.init ⟨false, true⟩ =
      .error ⟨"Failed to connect to DBus session bus"⟩ ∧
    DBusNotificationManager.init ⟨true, false⟩ =
      .error ⟨"Could not construct a DBus interface"⟩ ∧
    DBusNotificationManager.init ⟨true, true⟩ =
      .ok { active_notifications := []
            interface :=
              { service := "org.freedesktop.Notifications"
                path := "/org/freedesktop/Notifications"
                interfaceName := "org.freedesktop.Notifications" } } :=
  ⟨(init_spec ⟨false, true⟩).1 rfl,
   (init_spec ⟨true, false⟩).2.1 rfl rfl,
   (init_spec ⟨true, true⟩).2.2 rfl rfl⟩

/-- C9: the registry `active_notifications` is created empty at construction
and no bridge operation ever inserts into or removes from it: `_present`
leaves it unchanged, and after any sequence of presenter invocations it is
still the empty mapping. -/
theorem active_notifications_never_mutated (env : InitEnv)
    (m0 : DBusNotificationManager)
    (h : DBusNotificationManager.init env = .ok m0)
    (p : QWebEngineProfile)
    (steps : List (QWebEngineNotification × QDBusMessage)) :
    m0.active_notifications = [] ∧
    (runEvents ⟨m0, set_as_presenter_for p⟩
        steps).manager.active_notifications = [] ∧
    ∀ (m : DBusNotificationManager) (n : QWebEngineNotification)
      (r : QDBusMessage),
      (m.present n r).manager.active_notifications =
        m.active_notifications := by
  have h0 : m0.active_notifications = [] := by
    obtain ⟨b, t⟩ := env
    cases b <;> cases t
    · exact Except.noConfusion h
    · exact Except.noConfusion h
    · exact Except.noConfusion h
    · injection h with h'
      subst h'
      rfl
  refine ⟨h0, ?_, fun m n r => present_preserves_registry m n r⟩
  rw [runEvents_registry]
  exact h0

/-- C9 witness: a successful construction followed by one delivered
notification. -/
theorem active_notifications_never_mutated_witness :
    sampleManager.active_notifications = [] ∧
    (runEvents ⟨sampleManager, set_as_presenter_for ⟨none⟩⟩
        [(sampleNotif, sampleReply)]).manager.active_notifications = [] :=
  ⟨(active_notifications_never_mutated ⟨true, true⟩ sampleManager rfl ⟨none⟩
      [(sampleNotif, sampleReply)]).1,
   (active_notifications_never_mutated ⟨true, true⟩ sampleManager rfl ⟨none⟩
      [(sampleNotif, sampleReply)]).2.1⟩

/-- C3: the installed presenter callback re-registers itself on the profile
as its first action, unconditionally; hence after `set_as_presenter_for` and
any sequence of presenter invocations (failing ones included) the callback is
still installed, so a further notification can be presented without calling
`set_as_presenter_for` again. -/
theorem presenter_reinstalled (m : DBusNotificationManager)
    (p : QWebEngineProfile)
    (steps : List (QWebEngineNotification × QDBusMessage)) :
    (runEvents ⟨m, set_as_presenter_for p⟩ steps).profile.presenter =
      some .presentAndReset ∧
    ∀ (m' : DBusNotificationManager) (p' : QWebEngineProfile)
      (n : QWebEngineNotification) (r : QDBusMessage),
      (runCallback m' p' n r).events.head? = some .setPresenter ∧
      (runCallback m' p' n r).profile.presenter = some .presentAndReset :=
  ⟨runEvents_presenter steps _ rfl, fun _ _ _ _ => ⟨rfl, rfl⟩⟩

/-- C1 (code bug): after a successful reply assigning id 7, `_present` logs
the assignment but never inserts (7, handle) into `active_notifications`:
the registry of a fresh bridge is still empty afterwards, with no entry
keyed 7. -/
theorem present_success_does_not_register :
    (sampleManager.present sampleNotif
        ⟨.replyMessage, [.uint32 7]⟩).result = .ok () ∧
    (sampleManager.present sampleNotif
        ⟨.replyMessage, [.uint32 7]⟩).logged =
      ["Sent out notification 7"] ∧
    (sampleManager.present sampleNotif
        ⟨.replyMessage, [.uint32 7]⟩).manager.active_notifications = [] :=
  ⟨rfl, rfl, rfl⟩

/-- C2 (code bug): `_present` never inspects the reply's message type; a
bus-level error reply carrying the daemon's error text as its single
argument is treated exactly like a success: no exception is raised and the
error text is logged as the assigned notification id. -/
theorem present_swallows_error_reply :
    (sampleManager.present sampleNotif
        ⟨.errorMessage,
         [.str "org.freedesktop.DBus.Error.ServiceUnknown"]⟩).result =
      .ok () ∧
    (sampleManager.present sampleNotif
        ⟨.errorMessage,
         [.str "org.freedesktop.DBus.Error.ServiceUnknown"]⟩).logged =
      ["Sent out notification org.freedesktop.DBus.Error.ServiceUnknown"] :=
  ⟨rfl, rfl⟩

/-- C10 counterexample: presenting a handle whose icon is stored in ARGB32
format leaves the handle's observable icon in ARGB32: the icon the caller
can see is not mutated to the RGBA8888 layout, because `icon()` hands
`_convert_image` a by-value copy. -/
theorem present_icon_not_mutated_counterexample :
    ¬ ((sampleManager.present sampleIconNotif
          sampleReply).notification.icon.map QImage.format =
        some .rgba8888) := by
  decide

/-- C10 amended: `_convert_image` does convert the image object handed to it
in place to RGBA8888 before reading its bytes, but `_present` hands it a
by-value copy of the handle's icon, so the handle's icon observable by the
caller is unchanged by a present call. -/
theorem convert_in_place_on_copy (m : DBusNotificationManager)
    (n : QWebEngineNotification) (reply : QDBusMessage) (img : QImage) :
    (convert_image img).1.format = .rgba8888 ∧
    (m.present n reply).notification.icon = n.icon := by
  refine ⟨rfl, ?_⟩
  rw [present_notification_state]
  simp [QWebEngineNotification.show]

end DBusNotify
